import Mathlib

/-!
Shallow embedding of the request-time authentication gate and OTP flow of
the form-mailstone application.

Source files embedded:
* `src/proxy.ts` — the `proxy` middleware: route classification
  (`protectedRoutes` / `authRoutes`), session refresh, redirect decisions.
* `src/lib/actions/auth.ts` — `signInWithOTP`, `verifyOTP`, `getUser`,
  and the milestone actions `createMilestone` / `updateMilestone` /
  `deleteMilestone` with their admin gate.
* `src/lib/validations/auth.ts` — `otpTokenSchema` (6 numeric digits).

External collaborators (the Supabase client, the zod email schema) are
modelled as inputs: the provider call is a value of a result type passed
to the embedded function, mirroring the external-interface contract that
a provider call returns a result and never throws.
-/

namespace FormMailstone

/-! ## String helpers mirroring the JavaScript operations used by the source -/

/-- JavaScript `pat.isPrefixOf`-style check on character lists, the core of
`String.prototype.startsWith` and `String.prototype.includes`. -/
def charsContains (pat : List Char) : List Char → Bool
  | [] => pat.isEmpty
  | a :: l => pat.isPrefixOf (a :: l) || charsContains pat l

/-- JavaScript `s.includes(pat)`. -/
def strIncludes (s pat : String) : Bool :=
  charsContains pat.toList s.toList

/-- JavaScript `s.startsWith(pre)`. -/
def strStartsWith (s pre : String) : Bool :=
  pre.toList.isPrefixOf s.toList

/-- JavaScript `s.toLowerCase()`, character by character (the source only
tests ASCII substrings on the lowered string). -/
def strToLower (s : String) : String :=
  ⟨s.toList.map Char.toLower⟩

/-- JavaScript `v || d` for an optional string `v` (both `null` and the
empty string are falsy and select the default). -/
def jsOrElse (v : Option String) (d : String) : String :=
  match v with
  | none => d
  | some s => if s = "" then d else s

/-! ## URL search params (`URLSearchParams` get / set / delete) -/

/-- `URLSearchParams.get`: value of the first pair with the given key. -/
def searchParamsGet (q : List (String × String)) (k : String) : Option String :=
  match q with
  | [] => none
  | (k', v) :: rest => if k' = k then some v else searchParamsGet rest k

/-- `URLSearchParams.delete`: remove every pair with the given key. -/
def searchParamsDelete (q : List (String × String)) (k : String) :
    List (String × String) :=
  match q with
  | [] => []
  | (k', v) :: rest =>
    if k' = k then searchParamsDelete rest k
    else (k', v) :: searchParamsDelete rest k

/-- `URLSearchParams.set`: overwrite the first pair with the given key and
drop later duplicates; append when the key is absent. -/
def searchParamsSet (q : List (String × String)) (k v : String) :
    List (String × String) :=
  match q with
  | [] => [(k, v)]
  | (k', v') :: rest =>
    if k' = k then (k, v) :: searchParamsDelete rest k
    else (k', v') :: searchParamsSet rest k v

/-! ## Data model for the gate (`src/proxy.ts`) -/

/-- The part of `request.nextUrl` the proxy reads and writes. -/
structure Url where
  pathname : String
  searchParams : List (String × String)
deriving DecidableEq, Repr

/-- A provider user; the gate only tests presence. -/
structure User where
  id : String
deriving DecidableEq, Repr

/-- Result of the provider call `supabase.auth.getUser()`: per the
external-interface contract the call returns rather than throws; a failed
call reports an `error` and no `user`, together with any cookie mutations
produced by the session refresh. -/
structure GetUserResult where
  user : Option User
  error : Option String
  cookiesToSet : List (String × String)
deriving DecidableEq, Repr

/-- The response the proxy produces: pass the request through (carrying the
session-refresh cookie writes) or redirect. -/
inductive ProxyResponse where
  | next (cookies : List (String × String))
  | redirect (url : Url)
deriving DecidableEq, Repr

/-- Proxy result instrumented with whether the provider was contacted. -/
structure ProxyOutcome where
  response : ProxyResponse
  providerCalled : Bool
deriving DecidableEq, Repr

/-- `protectedRoutes` from `src/proxy.ts`. -/
def protectedRoutes : List String :=
  ["/", "/account", "/dashboard", "/profile", "/settings"]

/-- `authRoutes` from `src/proxy.ts`. -/
def authRoutes : List String := ["/login", "/otp"]

/-- `isProtectedRoute` from `src/proxy.ts`: exact match for the home page,
prefix match for the other protected routes. -/
def isProtectedRoute (pathname : String) : Bool :=
  protectedRoutes.any fun route =>
    if route = "/" then pathname = "/" else strStartsWith pathname route

/-- `isAuthRoute` from `src/proxy.ts`: exact match only. -/
def isAuthRoute (pathname : String) : Bool :=
  authRoutes.any fun route => pathname = route

/-- The `proxy` function of `src/proxy.ts`. `configured` is the conjunction
of the two environment checks; `getUserResult` is the outcome of the
provider call `supabase.auth.getUser()`. -/
def proxy (configured : Bool) (request : Url) (getUserResult : GetUserResult) :
    ProxyOutcome :=
  if !configured then
    { response := .next [], providerCalled := false }
  else
    let user := getUserResult.user
    if isProtectedRoute request.pathname && user.isNone then
      { response := .redirect
          { pathname := "/login"
            searchParams :=
              searchParamsSet request.searchParams "redirect" request.pathname }
        providerCalled := true }
    else if isAuthRoute request.pathname && user.isSome then
      { response := .redirect
          { pathname := jsOrElse (searchParamsGet request.searchParams "redirect") "/"
            searchParams := searchParamsDelete request.searchParams "redirect" }
        providerCalled := true }
    else
      { response := .next getUserResult.cookiesToSet, providerCalled := true }

/-! ## OTP actions (`src/lib/actions/auth.ts`) -/

/-- `AuthResult` from `src/lib/actions/auth.ts`. -/
structure AuthResult where
  success : Bool
  error : Option String := none
  message : Option String := none
deriving DecidableEq, Repr

/-- `otpTokenSchema` from `src/lib/validations/auth.ts`: length exactly 6,
then all characters numeric; `safeParse` reports the first failing check.
`none` means the token is valid. -/
def otpTokenCheck (t : String) : Option String :=
  if t.length ≠ 6 then some "OTP must be exactly 6 digits"
  else if !(t.toList.all Char.isDigit) then some "OTP must contain only numbers"
  else none

/-- The error mapping of `verifyOTP` on a provider error message. -/
def mapVerifyError (m : String) : String :=
  if strIncludes m "expired" then
    "Verification code has expired. Please request a new one."
  else if strIncludes m "invalid" then
    "Invalid verification code. Please check and try again."
  else m

/-- Outcome of `verifyOTP`: the returned `AuthResult`, the OTP session
cookie after the call, and whether the provider was contacted. -/
structure VerifyOutcome where
  result : AuthResult
  otpCookie : Option String
  providerCalled : Bool
deriving DecidableEq, Repr

/-- `verifyOTP` from `src/lib/actions/auth.ts`. `otpCookie` is the current
value of the `otp_session` cookie (the pending challenge email);
`providerVerify` is the provider call `supabase.auth.verifyOtp`, modelled
as a function from email and token to an optional error message. -/
def verifyOTP (otpCookie : Option String) (token : String)
    (providerVerify : String → String → Option String) : VerifyOutcome :=
  match otpCookie with
  | none =>
    { result := { success := false
                  error := some "Session expired. Please request a new verification code." }
      otpCookie := none
      providerCalled := false }
  | some email =>
    match otpTokenCheck token with
    | some msg =>
      { result := { success := false, error := some msg }
        otpCookie := some email
        providerCalled := false }
    | none =>
      match providerVerify email token with
      | some errMsg =>
        { result := { success := false, error := some (mapVerifyError errMsg) }
          otpCookie := some email
          providerCalled := true }
      | none =>
        { result := { success := true, message := some "Successfully verified" }
          otpCookie := none
          providerCalled := true }

/-- The error mapping of `signInWithOTP` on a provider error message:
signup-disabled (case-insensitive substring tests), rate-limited
(case-sensitive), else the raw provider message. -/
def mapSendError (m : String) : String :=
  let lower := strToLower m
  if strIncludes lower "signups not allowed" || strIncludes lower "signup" ||
      strIncludes lower "user not found" ||
      (strIncludes lower "otp" && strIncludes lower "disabled") then
    "Pendaftaran tidak dibuka. Silakan hubungi administrator jika Anda memerlukan akses."
  else if strIncludes m "rate limit" then
    "Too many requests. Please wait a moment before trying again."
  else m

/-- Outcome of `signInWithOTP`: the returned `AuthResult`, the OTP session
cookie after the call, and whether the provider was contacted. -/
structure SendOutcome where
  result : AuthResult
  otpCookie : Option String
  providerCalled : Bool
deriving DecidableEq, Repr

/-- `signInWithOTP` from `src/lib/actions/auth.ts`. The zod `emailSchema`
is an external library call, modelled by its `safeParse` outcome
`emailValidation` (`Except.error` carries the first issue's message);
`providerSend` is `supabase.auth.signInWithOtp` with
`shouldCreateUser = false`, returning an optional error message. -/
def signInWithOTP (emailValidation : Except String String)
    (providerSend : String → Option String) (otpCookie : Option String) :
    SendOutcome :=
  match emailValidation with
  | .error msg =>
    { result := { success := false, error := some msg }
      otpCookie := otpCookie
      providerCalled := false }
  | .ok email =>
    match providerSend email with
    | some e =>
      { result := { success := false, error := some (mapSendError e) }
        otpCookie := otpCookie
        providerCalled := true }
    | none =>
      { result := { success := true
                    message := some "Verification code sent to your email" }
        otpCookie := some email
        providerCalled := true }

/-- `getUser` from `src/lib/actions/auth.ts`: returns `none` when the
provider call reports an error or no user. -/
def getUser (r : GetUserResult) : Option User :=
  if r.error.isSome || r.user.isNone then none else r.user

/-! ## Milestone actions (`src/lib/actions/auth.ts`, milestone section) -/

/-- Outcome of a milestone action: success flag, error message, and whether
a database write (insert / update / delete) was issued. -/
structure MilestoneOutcome where
  success : Bool
  error : Option String := none
  dbWritten : Bool
deriving DecidableEq, Repr

/-- The unauthorized error message shared by the three admin-gated
milestone actions. -/
def unauthorizedMsg : String := "Unauthorized. Admin access required."

/-- `createMilestone` from the milestone actions. `admin` is the result of
`isAdmin()`; the zod `createMilestoneSchema` call is modelled by its
`safeParse` outcome `validation`; `db` is the outcome of the insert. -/
def createMilestone (admin : Bool) (validation : Except String Unit)
    (db : Except Unit Unit) : MilestoneOutcome :=
  if !admin then
    { success := false, error := some unauthorizedMsg, dbWritten := false }
  else
    match validation with
    | .error m => { success := false, error := some m, dbWritten := false }
    | .ok _ =>
      match db with
      | .error _ =>
        { success := false, error := some "Failed to create milestone", dbWritten := true }
      | .ok _ => { success := true, dbWritten := true }

/-- `updateMilestone` from the milestone actions, modelled like
`createMilestone` with the `updateMilestoneSchema` outcome. -/
def updateMilestone (admin : Bool) (validation : Except String Unit)
    (db : Except Unit Unit) : MilestoneOutcome :=
  if !admin then
    { success := false, error := some unauthorizedMsg, dbWritten := false }
  else
    match validation with
    | .error m => { success := false, error := some m, dbWritten := false }
    | .ok _ =>
      match db with
      | .error _ =>
        { success := false, error := some "Failed to update milestone", dbWritten := true }
      | .ok _ => { success := true, dbWritten := true }

/-- `deleteMilestone` from the milestone actions. The id check
`z.string().uuid().safeParse(id)` is modelled by its outcome `validation`
(the source replaces the issue message by a fixed string). -/
def deleteMilestone (admin : Bool) (validation : Except Unit Unit)
    (db : Except Unit Unit) : MilestoneOutcome :=
  if !admin then
    { success := false, error := some unauthorizedMsg, dbWritten := false }
  else
    match validation with
    | .error _ =>
      { success := false, error := some "Invalid milestone ID", dbWritten := false }
    | .ok _ =>
      match db with
      | .error _ =>
        { success := false, error := some "Failed to delete milestone", dbWritten := true }
      | .ok _ => { success := true, dbWritten := true }

/-! ## Helper lemmas -/

/-- Setting a search param makes it retrievable with that value. -/
theorem searchParamsGet_set (q : List (String × String)) (k v : String) :
    searchParamsGet (searchParamsSet q k v) k = some v := by
  induction q with
  | nil => simp [searchParamsSet, searchParamsGet]
  | cons p rest ih =>
    obtain ⟨k', v'⟩ := p
    by_cases h : k' = k
    · simp [searchParamsSet, h, searchParamsGet]
    · simp [searchParamsSet, h, searchParamsGet, ih]

/-- Deleting a search param makes lookups for it return nothing. -/
theorem searchParamsGet_delete (q : List (String × String)) (k : String) :
    searchParamsGet (searchParamsDelete q k) k = none := by
  induction q with
  | nil => simp [searchParamsDelete, searchParamsGet]
  | cons p rest ih =>
    obtain ⟨k', v'⟩ := p
    by_cases h : k' = k
    · simp [searchParamsDelete, h, ih]
    · simp [searchParamsDelete, h, searchParamsGet, ih]

/-- Boolean list-prefix test characterised by existence of a suffix. -/
theorem isPrefixOf_iff (l₁ l₂ : List Char) :
    l₁.isPrefixOf l₂ = true ↔ ∃ t, l₂ = l₁ ++ t := by
  induction l₁ generalizing l₂ with
  | nil => simp [List.isPrefixOf]
  | cons a as ih =>
    cases l₂ with
    | nil => simp [List.isPrefixOf]
    | cons b bs =>
      simp only [List.isPrefixOf, Bool.and_eq_true, beq_iff_eq, ih,
        List.cons_append, List.cons.injEq]
      constructor
      · rintro ⟨rfl, t, rfl⟩
        exact ⟨t, rfl, rfl⟩
      · rintro ⟨t, rfl, rfl⟩
        exact ⟨rfl, t, rfl⟩

/-- String `startsWith` characterised by existence of a string suffix. -/
theorem strStartsWith_iff (p r : String) :
    strStartsWith p r = true ↔ ∃ s : String, p = r ++ s := by
  rw [strStartsWith, isPrefixOf_iff]
  constructor
  · rintro ⟨t, ht⟩
    refine ⟨⟨t⟩, ?_⟩
    apply String.ext
    simpa [String.toList] using ht
  · rintro ⟨s, rfl⟩
    exact ⟨s.toList, by simp [String.toList]⟩

/-! ## Claim theorems for the gate -/

/-- Claim C1: for every request on a path classified Protected where the
provider reports no user and the provider is configured, the gate returns
a redirect whose target path is `/login` and whose query string carries
`redirect=` followed by the originally requested path. -/
theorem proxy_protected_redirects_to_login (req : Url) (r : GetUserResult)
    (hprot : isProtectedRoute req.pathname = true) (huser : r.user = none) :
    ∃ target : Url,
      (proxy true req r).response = .redirect target ∧
      target.pathname = "/login" ∧
      searchParamsGet target.searchParams "redirect" = some req.pathname := by
  refine ⟨{ pathname := "/login"
            searchParams := searchParamsSet req.searchParams "redirect" req.pathname },
    ?_, rfl, searchParamsGet_set _ _ _⟩
  simp [proxy, hprot, huser]

/-- Witness for C1: the unauthenticated request to `/dashboard`. -/
theorem proxy_protected_redirects_to_login_witness :
    isProtectedRoute "/dashboard" = true ∧
    ∃ target : Url,
      (proxy true { pathname := "/dashboard", searchParams := [] }
          { user := none, error := none, cookiesToSet := [] }).response =
        .redirect target ∧
      target.pathname = "/login" ∧
      searchParamsGet target.searchParams "redirect" = some "/dashboard" :=
  ⟨by decide, proxy_protected_redirects_to_login
    { pathname := "/dashboard", searchParams := [] }
    { user := none, error := none, cookiesToSet := [] } (by decide) rfl⟩

/-- Claim C2: the route classifier of the gate treats the Protected set as
exactly `{"/", "/account", "/dashboard", "/profile", "/settings"}`, the
root exactly and the others as prefixes, and the AuthOnly set as exactly
`{"/login", "/otp"}` matched exactly; in particular `/accountability` is
classified Protected. -/
theorem classifier_route_surface (p : String) :
    (isProtectedRoute p = true ↔
      (p = "/" ∨ (∃ s, p = "/account" ++ s) ∨ (∃ s, p = "/dashboard" ++ s) ∨
        (∃ s, p = "/profile" ++ s) ∨ (∃ s, p = "/settings" ++ s))) ∧
    (isAuthRoute p = true ↔ (p = "/login" ∨ p = "/otp")) ∧
    isProtectedRoute "/accountability" = true := by
  refine ⟨?_, ?_, by decide⟩
  · simp [isProtectedRoute, protectedRoutes, strStartsWith_iff]
  · simp [isAuthRoute, authRoutes]

/-- Witness for C2: instantiation at the path `/accountability`. -/
theorem classifier_route_surface_witness :
    (isProtectedRoute "/accountability" = true ↔
      ("/accountability" = "/" ∨ (∃ s, "/accountability" = "/account" ++ s) ∨
        (∃ s, "/accountability" = "/dashboard" ++ s) ∨
        (∃ s, "/accountability" = "/profile" ++ s) ∨
        (∃ s, "/accountability" = "/settings" ++ s))) ∧
    (isAuthRoute "/accountability" = true ↔
      ("/accountability" = "/login" ∨ "/accountability" = "/otp")) ∧
    isProtectedRoute "/accountability" = true :=
  classifier_route_surface "/accountability"

/-- Claim C4: when the provider's get-current-user call fails, the gate
treats the request as having no user — its response is the same as for an
error-free call reporting no user — and a Protected path is redirected to
`/login` rather than passed through. -/
theorem proxy_provider_error_fail_closed (req : Url) (e : String)
    (c c' : List (String × String))
    (hprot : isProtectedRoute req.pathname = true) :
    (proxy true req { user := none, error := some e, cookiesToSet := c }).response =
      (proxy true req { user := none, error := none, cookiesToSet := c' }).response ∧
    ∃ target : Url,
      (proxy true req { user := none, error := some e, cookiesToSet := c }).response =
        .redirect target ∧ target.pathname = "/login" := by
  refine ⟨by simp [proxy, hprot],
    ⟨{ pathname := "/login"
       searchParams := searchParamsSet req.searchParams "redirect" req.pathname },
      by simp [proxy, hprot], rfl⟩⟩

/-- Witness for C4: provider unreachable on the Protected path `/account`. -/
theorem proxy_provider_error_fail_closed_witness :
    isProtectedRoute "/account" = true ∧
    ((proxy true { pathname := "/account", searchParams := [] }
        { user := none, error := some "fetch failed", cookiesToSet := [] }).response =
      (proxy true { pathname := "/account", searchParams := [] }
        { user := none, error := none, cookiesToSet := [] }).response ∧
    ∃ target : Url,
      (proxy true { pathname := "/account", searchParams := [] }
          { user := none, error := some "fetch failed", cookiesToSet := [] }).response =
        .redirect target ∧ target.pathname = "/login") :=
  ⟨by decide, proxy_provider_error_fail_closed
    { pathname := "/account", searchParams := [] } "fetch failed" [] [] (by decide)⟩

/-- Claim C5: when the provider is not configured, the gate passes the
request through unmodified — no provider call, no cookie writes, no
redirect — regardless of path or provider state. -/
theorem proxy_unconfigured_passthrough (req : Url) (r : GetUserResult) :
    proxy false req r = { response := .next [], providerCalled := false } := rfl

/-- Claim C3, counterexample: on `/login?redirect=` with a user present,
the `redirect` parameter is present with value `""`, yet the gate's
redirect target path is `/`, not that value. -/
theorem proxy_auth_redirect_counterexample :
    searchParamsGet [("redirect", "")] "redirect" = some "" ∧
    (proxy true { pathname := "/login", searchParams := [("redirect", "")] }
        { user := some { id := "u1" }, error := none, cookiesToSet := [] }).response =
      .redirect { pathname := "/", searchParams := [] } ∧
    ("/" : String) ≠ "" := by
  refine ⟨rfl, by decide, by decide⟩

/-- Claim C3, amended: for every request on a path classified AuthOnly with
a user present, the gate redirects; the target path is the value of the
`redirect` query parameter when that parameter is present with a nonempty
value and the root path `/` when it is absent or empty, and the `redirect`
parameter does not appear in the final redirect URL. -/
theorem proxy_auth_redirect (req : Url) (r : GetUserResult) (u : User)
    (hauth : isAuthRoute req.pathname = true) (huser : r.user = some u) :
    ∃ target : Url,
      (proxy true req r).response = .redirect target ∧
      (∀ v, searchParamsGet req.searchParams "redirect" = some v → v ≠ "" →
        target.pathname = v) ∧
      ((searchParamsGet req.searchParams "redirect" = none ∨
        searchParamsGet req.searchParams "redirect" = some "") →
        target.pathname = "/") ∧
      searchParamsGet target.searchParams "redirect" = none := by
  refine ⟨{ pathname := jsOrElse (searchParamsGet req.searchParams "redirect") "/"
            searchParams := searchParamsDelete req.searchParams "redirect" },
    ?_, ?_, ?_, searchParamsGet_delete _ _⟩
  · simp [proxy, hauth, huser]
  · intro v hv hne
    simp [jsOrElse, hv, hne]
  · rintro (hv | hv) <;> simp [jsOrElse, hv]

/-- Witness for C3 amended: the authenticated request to
`/login?redirect=%2Faccount`. -/
theorem proxy_auth_redirect_witness :
    isAuthRoute "/login" = true ∧
    ∃ target : Url,
      (proxy true { pathname := "/login", searchParams := [("redirect", "/account")] }
          { user := some { id := "u1" }, error := none, cookiesToSet := [] }).response =
        .redirect target ∧
      (∀ v, searchParamsGet [("redirect", "/account")] "redirect" = some v → v ≠ "" →
        target.pathname = v) ∧
      ((searchParamsGet [("redirect", "/account")] "redirect" = none ∨
        searchParamsGet [("redirect", "/account")] "redirect" = some "") →
        target.pathname = "/") ∧
      searchParamsGet target.searchParams "redirect" = none :=
  ⟨by decide, proxy_auth_redirect
    { pathname := "/login", searchParams := [("redirect", "/account")] }
    { user := some { id := "u1" }, error := none, cookiesToSet := [] }
    { id := "u1" } (by decide) rfl⟩

/-! ## Claim theorems for the OTP flow and milestone actions -/

/-- Claim C6: when verify's provider call reports an error, verify returns
the mapped failure (expired-code, invalid-code, or the generic raw
message) and does not clear the pending challenge; and in general the
challenge is cleared only when the provider call succeeds. -/
theorem verifyOTP_provider_error_keeps_challenge (email token e : String)
    (pv : String → String → Option String)
    (htok : otpTokenCheck token = none)
    (hpv : pv email token = some e) :
    ((verifyOTP (some email) token pv).result.success = false ∧
      (verifyOTP (some email) token pv).result.error = some (mapVerifyError e) ∧
      (mapVerifyError e = "Verification code has expired. Please request a new one." ∨
        mapVerifyError e = "Invalid verification code. Please check and try again." ∨
        mapVerifyError e = e) ∧
      (verifyOTP (some email) token pv).otpCookie = some email) ∧
    (∀ (cookie : Option String) (tok : String)
        (pv' : String → String → Option String),
      (verifyOTP cookie tok pv').otpCookie = none →
        cookie = none ∨ (verifyOTP cookie tok pv').result.success = true) := by
  constructor
  · refine ⟨?_, ?_, ?_, ?_⟩
    · simp [verifyOTP, htok, hpv]
    · simp [verifyOTP, htok, hpv]
    · rw [mapVerifyError]
      by_cases h1 : strIncludes e "expired" = true
      · simp [h1]
      · by_cases h2 : strIncludes e "invalid" = true
        · simp [h1, h2]
        · simp [h1, h2]
    · simp [verifyOTP, htok, hpv]
  · intro cookie tok pv' h
    cases cookie with
    | none => exact Or.inl rfl
    | some em =>
      refine Or.inr ?_
      revert h
      simp only [verifyOTP]
      cases otpTokenCheck tok with
      | some m => intro h; exact absurd h (by simp)
      | none =>
        cases pv' em tok with
        | some msg => intro h; exact absurd h (by simp)
        | none => intro _; rfl

/-- Witness for C6: a sent challenge for `user@x.com`, then `verify` of
`000000` against a provider reporting `invalid`. -/
theorem verifyOTP_provider_error_keeps_challenge_witness :
    (((verifyOTP (some "user@x.com") "000000" fun _ _ => some "invalid").result.success = false ∧
      (verifyOTP (some "user@x.com") "000000" fun _ _ => some "invalid").result.error =
        some (mapVerifyError "invalid") ∧
      (mapVerifyError "invalid" = "Verification code has expired. Please request a new one." ∨
        mapVerifyError "invalid" = "Invalid verification code. Please check and try again." ∨
        mapVerifyError "invalid" = "invalid") ∧
      (verifyOTP (some "user@x.com") "000000" fun _ _ => some "invalid").otpCookie =
        some "user@x.com") ∧
    (∀ (cookie : Option String) (tok : String)
        (pv' : String → String → Option String),
      (verifyOTP cookie tok pv').otpCookie = none →
        cookie = none ∨ (verifyOTP cookie tok pv').result.success = true)) :=
  verifyOTP_provider_error_keeps_challenge "user@x.com" "000000" "invalid"
    (fun _ _ => some "invalid") (by decide) rfl

/-- Claim C7: for a valid email whose send-OTP provider call errors, send
fails with the error mapped by substring into exactly one of
signup-disabled, rate-limited, or the generic raw message; when none of
the recognized substrings match, the raw provider message is returned
unchanged. -/
theorem signInWithOTP_error_mapping (email e : String)
    (ps : String → Option String) (cookie : Option String)
    (hps : ps email = some e) :
    (signInWithOTP (.ok email) ps cookie).result.success = false ∧
    (signInWithOTP (.ok email) ps cookie).result.error = some (mapSendError e) ∧
    (mapSendError e =
        "Pendaftaran tidak dibuka. Silakan hubungi administrator jika Anda memerlukan akses." ∨
      mapSendError e = "Too many requests. Please wait a moment before trying again." ∨
      mapSendError e = e) ∧
    ((strIncludes (strToLower e) "signups not allowed" = false ∧
      strIncludes (strToLower e) "signup" = false ∧
      strIncludes (strToLower e) "user not found" = false ∧
      (strIncludes (strToLower e) "otp" = false ∨
        strIncludes (strToLower e) "disabled" = false) ∧
      strIncludes e "rate limit" = false) →
      mapSendError e = e) := by
  refine ⟨by simp [signInWithOTP, hps], by simp [signInWithOTP, hps], ?_, ?_⟩
  · rw [mapSendError]
    by_cases h1 : (strIncludes (strToLower e) "signups not allowed" ||
        strIncludes (strToLower e) "signup" ||
        strIncludes (strToLower e) "user not found" ||
        (strIncludes (strToLower e) "otp" && strIncludes (strToLower e) "disabled")) = true
    · simp [h1]
    · by_cases h2 : strIncludes e "rate limit" = true
      · simp [h1, h2]
      · simp [h1, h2]
  · rintro ⟨h1, h2, h3, h4, h5⟩
    rcases h4 with h4 | h4 <;>
      simp [mapSendError, h1, h2, h3, h4, h5]

/-- Witness for C7: the unrecognized provider message `boom`. -/
theorem signInWithOTP_error_mapping_witness :
    ((signInWithOTP (.ok "user@x.com") (fun _ => some "boom") none).result.success = false ∧
    (signInWithOTP (.ok "user@x.com") (fun _ => some "boom") none).result.error =
      some (mapSendError "boom") ∧
    (mapSendError "boom" =
        "Pendaftaran tidak dibuka. Silakan hubungi administrator jika Anda memerlukan akses." ∨
      mapSendError "boom" = "Too many requests. Please wait a moment before trying again." ∨
      mapSendError "boom" = "boom") ∧
    ((strIncludes (strToLower "boom") "signups not allowed" = false ∧
      strIncludes (strToLower "boom") "signup" = false ∧
      strIncludes (strToLower "boom") "user not found" = false ∧
      (strIncludes (strToLower "boom") "otp" = false ∨
        strIncludes (strToLower "boom") "disabled" = false) ∧
      strIncludes "boom" "rate limit" = false) →
      mapSendError "boom" = "boom")) :=
  signInWithOTP_error_mapping "user@x.com" "boom" (fun _ => some "boom") none rfl

/-- Claim C8: for every token that is not exactly 6 numeric digits, verify
does not contact the provider, and when a challenge is pending it returns
the token validation error. -/
theorem verifyOTP_invalid_token_no_provider (cookie : Option String)
    (token : String) (pv : String → String → Option String)
    (hbad : ¬ (token.length = 6 ∧ token.toList.all Char.isDigit = true)) :
    (verifyOTP cookie token pv).providerCalled = false ∧
    ∀ email, cookie = some email →
      (verifyOTP cookie token pv).result.success = false ∧
      ((verifyOTP cookie token pv).result.error = some "OTP must be exactly 6 digits" ∨
        (verifyOTP cookie token pv).result.error = some "OTP must contain only numbers") := by
  have hc : otpTokenCheck token = some "OTP must be exactly 6 digits" ∨
      otpTokenCheck token = some "OTP must contain only numbers" := by
    by_cases h1 : token.length = 6
    · have h2 : token.toList.all Char.isDigit = false := by
        cases hh : token.toList.all Char.isDigit
        · rfl
        · exact absurd ⟨h1, hh⟩ hbad
      right
      rw [otpTokenCheck, if_neg (fun hn => hn h1), if_pos (by rw [h2]; rfl)]
    · left
      rw [otpTokenCheck, if_pos h1]
  cases cookie with
  | none =>
    exact ⟨rfl, fun email hem => by simp at hem⟩
  | some em =>
    rcases hc with hc | hc
    · refine ⟨by simp [verifyOTP, hc], fun email hem => ?_⟩
      exact ⟨by simp [verifyOTP, hc], Or.inl (by simp [verifyOTP, hc])⟩
    · refine ⟨by simp [verifyOTP, hc], fun email hem => ?_⟩
      exact ⟨by simp [verifyOTP, hc], Or.inr (by simp [verifyOTP, hc])⟩

/-- Witness for C8: the non-numeric token `12a456` against a pending
challenge. -/
theorem verifyOTP_invalid_token_no_provider_witness :
    ((verifyOTP (some "user@x.com") "12a456" fun _ _ => none).providerCalled = false ∧
    ∀ email, (some "user@x.com" : Option String) = some email →
      (verifyOTP (some "user@x.com") "12a456" fun _ _ => none).result.success = false ∧
      ((verifyOTP (some "user@x.com") "12a456" fun _ _ => none).result.error =
          some "OTP must be exactly 6 digits" ∨
        (verifyOTP (some "user@x.com") "12a456" fun _ _ => none).result.error =
          some "OTP must contain only numbers")) :=
  verifyOTP_invalid_token_no_provider (some "user@x.com") "12a456"
    (fun _ _ => none) (by decide)

/-- Claim C9: getUser returns none exactly when the provider call reports
an error or no user, so a provider outage is indistinguishable at this
interface from an unauthenticated request. -/
theorem getUser_fail_closed :
    (∀ r : GetUserResult, getUser r = none ↔ (r.error.isSome = true ∨ r.user = none)) ∧
    (∀ (u : User) (e : String) (c c' : List (String × String)),
      getUser { user := some u, error := some e, cookiesToSet := c } =
        getUser { user := none, error := none, cookiesToSet := c' }) := by
  constructor
  · rintro ⟨ru, re, rc⟩
    cases ru <;> cases re <;> simp [getUser]
  · intro u e c c'
    simp [getUser]

/-- Claim C10: each of createMilestone, updateMilestone and deleteMilestone
returns the unauthorized error with no database write when the caller is
not an admin, regardless of the validation or database outcomes. -/
theorem milestone_actions_admin_gate (v : Except String Unit)
    (vd : Except Unit Unit) (db : Except Unit Unit) :
    createMilestone false v db =
      { success := false, error := some unauthorizedMsg, dbWritten := false } ∧
    updateMilestone false v db =
      { success := false, error := some unauthorizedMsg, dbWritten := false } ∧
    deleteMilestone false vd db =
      { success := false, error := some unauthorizedMsg, dbWritten := false } :=
  ⟨rfl, rfl, rfl⟩

end FormMailstone
